import Mathlib

/-!
Verification development for the KPI comparison service
(`compare_service.py` / `app.py`).

The pipeline `run_comparison_pipeline` is shallowly embedded below.
Modelling conventions:
* Tabular cell values are modelled by `Cell`: a rational number (the usual
  idealisation of the numeric values pandas reads), a string, or `nan`
  (pandas' missing value, produced for empty cells and for columns absent
  from a given source file after concatenation).
* An extracted archive is either `Archive.bad msg` (the zip library raised
  while opening/extracting; `msg` is the exception text) or `Archive.ok files`
  where each `XFile` carries the base name (`stem`), the extension (`ext`),
  the column list and the parsed rows of the contained spreadsheet.  Rows are
  association lists; a key absent from a row models an empty cell.
* `re.match r"[A-Za-z]{3}\d{4}"` anchors only at the start of the string;
  `matchesMonthYear` reproduces that prefix semantics.  Python's `\d` also
  accepts non-ASCII digits, but a file is selected only when the tail of its
  stem equals `str(selected_year)`, which is ASCII, so restricting `\d` to
  ASCII digits does not change which files are selected.
* Exception messages raised inside pandas are abstracted: a missing column
  raises `KeyError` whose `str` is the quoted column name; a string operand
  in a column subtraction raises a `TypeError` whose exact text we replace by
  a fixed marker.  All such exceptions are caught by the single
  `try/except` and surfaced as `"Processing error: " ++ cause`.
* Plotly figure serialisation is presentation; the five chart structures are
  modelled as the data they are built from.  Likewise the summary f-string
  formatting is presentation; `Summary` holds the computed quantities.
* `df.groupby` key ordering (pandas sorts group keys) is abstracted: the
  heat-map and trend structures use a fixed deterministic key order; no
  claim depends on the order of their rows.
-/

namespace CompareService

/-- A tabular cell value: a (rational) number, a string, or missing (NaN). -/
inductive Cell where
  | num (q : ℚ)
  | str (s : String)
  | nan
deriving DecidableEq

/-- One spreadsheet row: an association list from column name to cell value.
A missing key models an empty cell (pandas reads it as NaN). -/
abbrev Row := List (String × Cell)

/-- One file extracted from the archive: base name, extension, and its
parsed tabular content (column list and rows). -/
structure XFile where
  stem : String
  ext : String
  cols : List String
  rows : List Row
deriving DecidableEq

/-- The uploaded bytes, after the zip library has seen them: either the
library raised (invalid / truncated archive) with exception text `msg`,
or extraction produced a list of files. -/
inductive Archive where
  | bad (msg : String)
  | ok (files : List XFile)

/-- `KPI_COLS` from `compare_service.py`. -/
def KPI0 : String := "Reported Value to Regulator"

/-- Second KPI column name. -/
def KPI1 : String := "Reported Value to Group"

/-- Third KPI column name. -/
def KPI2 : String := "Actual Value MAPS Networks"

/-- The three KPI column names, as in `KPI_COLS`. -/
def KPI_COLS : List String := [KPI0, KPI1, KPI2]

/-- ASCII alphabetic test, the semantics of the regex class `[A-Za-z]`. -/
def isAsciiAlpha (c : Char) : Bool :=
  (decide ('A' ≤ c) && decide (c ≤ 'Z')) || (decide ('a' ≤ c) && decide (c ≤ 'z'))

/-- `re.match(r"[A-Za-z]{3}\d{4}", name)`: an (unanchored-at-the-end) prefix
match — the first three characters are letters and the next four are digits;
anything may follow. -/
def matchesMonthYear (name : String) : Bool :=
  let cs := name.toList
  decide (7 ≤ cs.length) && (cs.take 3).all isAsciiAlpha
    && ((cs.drop 3).take 4).all Char.isDigit

/-- Python-dict insertion: `m[k] = v` keeps the position of an existing key
(replacing its value) and appends a new key at the end. -/
def upsert (m : List (String × XFile)) (k : String) (v : XFile) :
    List (String × XFile) :=
  match m with
  | [] => [(k, v)]
  | (k0, v0) :: rest =>
    if k0 = k then (k, v) :: rest else (k0, v0) :: upsert rest k v

/-- The condition under which a contained file ends up being processed for
`selected_year`: it is found by `rglob("*.xlsx")`, its stem matches the
month/year regex, and the stem after the first three characters equals
`str(selected_year)`. -/
def qualifies (selected_year : Int) (f : XFile) : Bool :=
  f.ext == ".xlsx"
    && (matchesMonthYear f.stem && (f.stem.drop 3 == toString selected_year))

/-- One iteration of the `year_files` loop: if the stem matches the regex
and its tail equals `str(selected_year)`, bind the first three characters of
the stem to the file. -/
def yfStep (selected_year : Int) (m : List (String × XFile)) (f : XFile) :
    List (String × XFile) :=
  if matchesMonthYear f.stem && (f.stem.drop 3 == toString selected_year)
  then upsert m (f.stem.take 3) f
  else m

/-- The `year_files` dict: iterate over the `.xlsx` files, keep those whose
stem matches the regex and whose tail equals `str(selected_year)`, keyed by
the first three characters of the stem (last write wins on collision). -/
def buildYearFiles (files : List XFile) (selected_year : Int) :
    List (String × XFile) :=
  (files.filter (fun f => f.ext == ".xlsx")).foldl (yfStep selected_year) []

/-- A row of the concatenated dataframe: the month label stamped on it, the
column list of its originating file, and the raw cells. -/
structure DRow where
  month : String
  cols : List String
  cells : Row
deriving DecidableEq

/-- Reading column `c` of a concatenated-dataframe row: the `Month` column
was assigned the month label; a column carried by the originating file reads
its cell (missing key = empty cell = NaN); a column the file did not carry
reads NaN (pandas `concat` fills the union of columns with NaN). -/
def getCell (r : DRow) (c : String) : Cell :=
  if c = "Month" then Cell.str r.month
  else if r.cols.contains c then (r.cells.lookup c).getD Cell.nan
  else Cell.nan

/-- `pd.concat` of the per-month dataframes, in `year_files` insertion
order, each row stamped with its month label. -/
def loadRows (yf : List (String × XFile)) : List DRow :=
  yf.flatMap (fun mf => mf.2.rows.map (fun r => ⟨mf.1, mf.2.cols, r⟩))

/-- `"Country" in df.columns` for the concatenated dataframe: some selected
file carries a `Country` column. -/
def hasCountryCol (yf : List (String × XFile)) : Bool :=
  yf.any (fun mf => mf.2.cols.contains "Country")

/-- Whether column `c` exists in the concatenated dataframe (union of the
files' columns plus the assigned `Month` column); reading a column not in
this set raises `KeyError`. -/
def mergedHasCol (yf : List (String × XFile)) (c : String) : Bool :=
  c == "Month" || yf.any (fun mf => mf.2.cols.contains c)

/-- The effective `Country` value of a row: if no file carried a `Country`
column, the code assigns the whole column the string `"Unknown"`; otherwise
the row's own cell is read (NaN for rows from files without the column). -/
def rowCountry (hasC : Bool) (r : DRow) : Cell :=
  if hasC then getCell r "Country" else Cell.str "Unknown"

/-- `df = df[df["Country"] == country]` unless the sentinel
`"All Countries"` was passed.  pandas `==` between a NaN or numeric cell and
a string is `False`, which the `Cell` equality reproduces. -/
def applyCountryFilter (hasC : Bool) (country : String) (rows : List DRow) :
    List DRow :=
  if country = "All Countries" then rows
  else rows.filter (fun r => decide (rowCountry hasC r = Cell.str country))

/-- Is the cell a string?  (A string operand makes the column subtraction
raise `TypeError`.) -/
def cellIsStr : Cell → Bool
  | Cell.str _ => true
  | _ => false

/-- Absolute value on the rationals, written out so that it evaluates by
kernel reduction (`qabs_eq_abs` identifies it with `|·|`). -/
def qabs (q : ℚ) : ℚ := if q ≤ 0 then -q else q

/-- `(df[a] - df[b]).abs()` on one row, after strings are excluded: numeric
cells subtract and take the absolute value; NaN propagates. -/
def cellAbsSub : Cell → Cell → Cell
  | Cell.num a, Cell.num b => Cell.num (qabs (a - b))
  | _, _ => Cell.nan

/-- The numeric values among a list of cells (strings and NaN dropped). -/
def cellNums (cs : List Cell) : List ℚ :=
  cs.filterMap (fun c => match c with | Cell.num q => some q | _ => none)

/-- `nunique(axis=1)` on one row restricted to the given cells: the number
of distinct non-NaN values. -/
def nunique (cs : List Cell) : Nat := (cellNums cs).dedup.length

/-- Binary maximum on the rationals, written out so that it evaluates by
kernel reduction. -/
def qmax (a b : ℚ) : ℚ := if a ≤ b then b else a

/-- `.max(axis=1)` on one row: the maximum of the non-NaN values, NaN when
all are NaN. -/
def maxCell (cs : List Cell) : Cell :=
  match cellNums cs with
  | [] => Cell.nan
  | q :: qs => Cell.num (qs.foldl qmax q)

/-- `.mean()` of a column: pandas skips NaN; the mean of the numeric values,
NaN when there are none. -/
def meanCell (cs : List Cell) : Cell :=
  match cellNums cs with
  | [] => Cell.nan
  | q :: qs => Cell.num ((q :: qs).sum / ((qs.length : ℚ) + 1))

/-- A dataset row augmented with the derived discrepancy columns of
lines 62–65 and 109 of `compare_service.py`. -/
structure DiscRow where
  base : DRow
  Diff_Reg_vs_Grp : Cell
  Diff_Reg_vs_Act : Cell
  Diff_Grp_vs_Act : Cell
  All_Match : Bool
  Max_Diff : Cell
deriving DecidableEq

/-- The per-row discrepancy computation: the three absolute pairwise
differences, `All_Match = (nunique of the three KPI cells == 1)`, and
`Max_Diff` = row-wise max of the three differences. -/
def augmentRow (r : DRow) : DiscRow :=
  let a := getCell r KPI0
  let b := getCell r KPI1
  let c := getCell r KPI2
  let d01 := cellAbsSub a b
  let d02 := cellAbsSub a c
  let d12 := cellAbsSub b c
  { base := r
    Diff_Reg_vs_Grp := d01
    Diff_Reg_vs_Act := d02
    Diff_Grp_vs_Act := d12
    All_Match := nunique [a, b, c] == 1
    Max_Diff := maxCell [d01, d02, d12] }

/-- Lines 62–65: reading a KPI column absent from the dataframe raises
`KeyError` (whose `str` is the quoted column name); a string operand in a
subtraction raises `TypeError` (text abstracted).  Errors occur in source
order: line 62 touches the first two KPI columns, line 63 the third.  On
success every row is augmented. -/
def computeDiscrepancies (yf : List (String × XFile)) (rows : List DRow) :
    Except String (List DiscRow) :=
  if !(mergedHasCol yf KPI0) then Except.error ("'" ++ KPI0 ++ "'")
  else if !(mergedHasCol yf KPI1) then Except.error ("'" ++ KPI1 ++ "'")
  else if rows.any (fun r => cellIsStr (getCell r KPI0) || cellIsStr (getCell r KPI1))
    then Except.error "unsupported operand type(s) for -"
  else if !(mergedHasCol yf KPI2) then Except.error ("'" ++ KPI2 ++ "'")
  else if rows.any (fun r => cellIsStr (getCell r KPI2))
    then Except.error "unsupported operand type(s) for -"
  else Except.ok (rows.map augmentRow)

/-- The quantities of the summary block (lines 68–79); the f-string
rendering of them is presentation and not modelled. -/
structure Summary where
  total : Nat
  all_match : Nat
  mismatch : Nat
  all_match_rate : ℚ
  mismatch_rate : ℚ
  avg_diff_reg_grp : Cell
  avg_diff_reg_act : Cell
  avg_diff_grp_act : Cell
deriving DecidableEq

/-- `df["All_Match"].sum()`. -/
def allMatchCount (out : List DiscRow) : Nat :=
  (out.filter (fun d => d.All_Match)).length

/-- The summary quantities: total, match/mismatch counts
(`mismatch = total - all_match`), the two rates, and the three column
means. -/
def summaryOf (out : List DiscRow) : Summary :=
  let total := out.length
  let a := allMatchCount out
  { total := total
    all_match := a
    mismatch := total - a
    all_match_rate := (a : ℚ) / (total : ℚ)
    mismatch_rate := ((total - a : Nat) : ℚ) / (total : ℚ)
    avg_diff_reg_grp := meanCell (out.map (fun d => d.Diff_Reg_vs_Grp))
    avg_diff_reg_act := meanCell (out.map (fun d => d.Diff_Reg_vs_Act))
    avg_diff_grp_act := meanCell (out.map (fun d => d.Diff_Grp_vs_Act)) }

/-- Sort key for `nlargest(10, "Max_Diff")`.  It is only ever applied after
rows with NaN `Max_Diff` have been dropped, and `Max_Diff` is never a
string, so only the `num` case is meaningful. -/
def mdKey : Cell → ℚ
  | Cell.num q => q
  | _ => 0

/-- Descending-by-`Max_Diff` comparison used to model `nlargest` with the
default `keep="first"` (stable: ties keep original order). -/
def descLe (x y : DiscRow) : Bool := decide (mdKey y.Max_Diff ≤ mdKey x.Max_Diff)

/-- `df.nlargest(10, "Max_Diff")`: drop rows whose `Max_Diff` is NaN,
stable-sort descending by `Max_Diff`, take the first 10. -/
def topSelect (out : List DiscRow) : List DiscRow :=
  ((out.filter (fun d => !(decide (d.Max_Diff = Cell.nan)))).mergeSort descLe).take 10

/-- One row of the top-mismatches table: the columns selected on
lines 110–112 (`Country`, `Month`, the three KPI columns, `Max_Diff`). -/
structure TopRow where
  country : Cell
  month : String
  kpi_reg : Cell
  kpi_grp : Cell
  kpi_act : Cell
  max_diff : Cell
deriving DecidableEq

/-- Project a selected row onto the table columns. -/
def projectTop (hasC : Bool) (d : DiscRow) : TopRow :=
  { country := rowCountry hasC d.base
    month := d.base.month
    kpi_reg := getCell d.base KPI0
    kpi_grp := getCell d.base KPI1
    kpi_act := getCell d.base KPI2
    max_diff := d.Max_Diff }

/-- The top-mismatches table (lines 109–119). -/
def topMismatches (hasC : Bool) (out : List DiscRow) : List TopRow :=
  (topSelect out).map (projectTop hasC)

/-- One row of the deviation heat-map: a country and the mean of each diff
column over that country's rows. -/
structure HeatRow where
  country : Cell
  mean_reg_grp : Cell
  mean_reg_act : Cell
  mean_grp_act : Cell
deriving DecidableEq

/-- The rows of `df` belonging to one country group. -/
def groupRows (hasC : Bool) (out : List DiscRow) (c : Cell) : List DiscRow :=
  out.filter (fun d => decide (rowCountry hasC d.base = c))

/-- The distinct country keys (`groupby` drops NaN keys; pandas sorts the
keys, an ordering no claim depends on — a fixed deterministic order is used
here). -/
def countryKeys (hasC : Bool) (out : List DiscRow) : List Cell :=
  ((out.map (fun d => rowCountry hasC d.base)).filter
    (fun c => !(decide (c = Cell.nan)))).dedup

/-- `df.groupby("Country")[diff columns].mean()` (lines 121–128). -/
def deviationHeatmap (hasC : Bool) (out : List DiscRow) : List HeatRow :=
  (countryKeys hasC out).map (fun c =>
    let g := groupRows hasC out c
    { country := c
      mean_reg_grp := meanCell (g.map (fun d => d.Diff_Reg_vs_Grp))
      mean_reg_act := meanCell (g.map (fun d => d.Diff_Reg_vs_Act))
      mean_grp_act := meanCell (g.map (fun d => d.Diff_Grp_vs_Act)) })

/-- One point of the monthly trend: a (month, country) group and its mean
`All_Match` rate. -/
structure TrendRow where
  month : String
  country : Cell
  match_rate : ℚ
deriving DecidableEq

/-- `df.groupby(["Month","Country"])["All_Match"].mean()` (lines 130–141);
group-key ordering abstracted as for the heat-map. -/
def monthlyTrend (hasC : Bool) (out : List DiscRow) : List TrendRow :=
  (((out.map (fun d => (d.base.month, rowCountry hasC d.base))).filter
      (fun mc => !(decide (mc.2 = Cell.nan)))).dedup).map
    (fun mc =>
      let g := out.filter (fun d =>
        d.base.month == mc.1 && decide (rowCountry hasC d.base = mc.2))
      { month := mc.1
        country := mc.2
        match_rate := ((g.filter (fun d => d.All_Match)).length : ℚ) / (g.length : ℚ) })

/-- The five chart structures, keyed as in the `plots` dict; the plotly
figure serialisation around each is presentation and not modelled. -/
structure Plots where
  agreement_pie : Nat × Nat
  pairwise_diff_bar : List (String × Cell)
  top_mismatches_table : List TopRow
  deviation_heatmap : List HeatRow
  monthly_trend : List TrendRow
deriving DecidableEq

/-- Build the five chart structures (lines 81–141). -/
def buildPlots (hasC : Bool) (out : List DiscRow) : Plots :=
  let s := summaryOf out
  { agreement_pie := (s.all_match, s.mismatch)
    pairwise_diff_bar :=
      [("Reg vs Group", s.avg_diff_reg_grp),
       ("Reg vs Actual", s.avg_diff_reg_act),
       ("Group vs Actual", s.avg_diff_grp_act)]
    top_mismatches_table := topMismatches hasC out
    deviation_heatmap := deviationHeatmap hasC out
    monthly_trend := monthlyTrend hasC out }

/-- The pipeline of `compare_service.run_comparison_pipeline`, returning the
`(plots, summary, error)` triple.  Any exception inside the `try` block
(invalid archive, `KeyError`, `TypeError`) surfaces as
`"Processing error: " ++ str(e)`. -/
def run_comparison_pipeline (zip_bytes : Archive) (selected_year : Int)
    (country : String) : Option Plots × Option Summary × Option String :=
  match zip_bytes with
  | Archive.bad msg => (none, none, some ("Processing error: " ++ msg))
  | Archive.ok files =>
    if (buildYearFiles files selected_year).isEmpty then
      (none, none,
        some ("No files found for year " ++ toString selected_year ++ "."))
    else if (applyCountryFilter (hasCountryCol (buildYearFiles files selected_year))
        country (loadRows (buildYearFiles files selected_year))).isEmpty then
      (none, none,
        some ("No data found for " ++ country ++ " in "
          ++ toString selected_year ++ "."))
    else
      match computeDiscrepancies (buildYearFiles files selected_year)
          (applyCountryFilter (hasCountryCol (buildYearFiles files selected_year))
            country (loadRows (buildYearFiles files selected_year))) with
      | Except.error cause =>
        (none, none, some ("Processing error: " ++ cause))
      | Except.ok out =>
        (some (buildPlots (hasCountryCol (buildYearFiles files selected_year)) out),
          some (summaryOf out), none)

/-- Modelled from the spec (§4.2 / claim C3): the qualifying condition as the
spec words it — the base name is exactly three alphabetic characters followed
by exactly four digits, and those four digits are the decimal representation
of the target year.  Used only to compare the spec's wording with the code's
`qualifies`. -/
def specExactPattern (name : String) (y : Int) : Prop :=
  name.toList.length = 7
    ∧ (name.toList.take 3).all isAsciiAlpha = true
    ∧ (name.toList.drop 3).all Char.isDigit = true
    ∧ name.drop 3 = toString y

instance (name : String) (y : Int) : Decidable (specExactPattern name y) := by
  unfold specExactPattern; infer_instance

/-- The observable shape of an error surfaced by the catch-all
`except Exception` handler (spec §7's `ProcessingError`). -/
def isProcessingErrorMessage (s : String) : Prop :=
  ∃ rest, s = "Processing error: " ++ rest

/-- Concrete file used in examples: matching stem, `.xlsx`, one row whose
first KPI cell is missing (an empty cell, read as NaN). -/
def fileNanKpi : XFile :=
  ⟨"Jan2023", ".xlsx", KPI_COLS, [[(KPI1, Cell.num 5), (KPI2, Cell.num 5)]]⟩

/-- Concrete file used in examples: carries a `Country` column. -/
def fileWithCountry : XFile :=
  ⟨"Jan2023", ".xlsx", "Country" :: KPI_COLS,
    [[("Country", Cell.str "X"), (KPI0, Cell.num 1), (KPI1, Cell.num 1),
      (KPI2, Cell.num 1)]]⟩

/-- Concrete file used in examples: omits the `Country` column. -/
def fileNoCountry : XFile :=
  ⟨"Feb2023", ".xlsx", KPI_COLS,
    [[(KPI0, Cell.num 2), (KPI1, Cell.num 2), (KPI2, Cell.num 2)]]⟩

/-- The dataset row `fileNoCountry` contributes after loading. -/
def rowFeb : DRow :=
  ⟨"Feb", KPI_COLS, [(KPI0, Cell.num 2), (KPI1, Cell.num 2), (KPI2, Cell.num 2)]⟩

/-- Concrete file used in examples: a non-numeric (string) KPI value. -/
def fileStrKpi : XFile :=
  ⟨"Mar2023", ".xlsx", KPI_COLS,
    [[(KPI0, Cell.str "oops"), (KPI1, Cell.num 3), (KPI2, Cell.num 3)]]⟩

/-- Concrete file used in examples: three equal numeric KPI values. -/
def fileAllMatch : XFile :=
  ⟨"Apr2023", ".xlsx", KPI_COLS,
    [[(KPI0, Cell.num 7), (KPI1, Cell.num 7), (KPI2, Cell.num 7)]]⟩

/-- Concrete file used in examples: stem has three letters then five
digits; its tail is the decimal representation of the year 12345. -/
def fileFiveDigits : XFile := ⟨"Jan12345", ".xlsx", KPI_COLS, []⟩

section Lemmas

/-- Membership after a dict update comes from the old map or is the new
binding. -/
theorem mem_upsert_elim {m : List (String × XFile)} {k : String} {v : XFile}
    {k' : String} {v' : XFile} (h : (k', v') ∈ upsert m k v) :
    (k', v') ∈ m ∨ (k' = k ∧ v' = v) := by
  induction m with
  | nil =>
    simp only [upsert, List.mem_singleton, Prod.mk.injEq] at h
    exact Or.inr h
  | cons hd tl ih =>
    obtain ⟨k0, v0⟩ := hd
    by_cases hk : k0 = k
    · rw [upsert, if_pos hk] at h
      rcases List.mem_cons.mp h with h1 | h1
      · simp only [Prod.mk.injEq] at h1
        exact Or.inr h1
      · exact Or.inl (List.mem_cons_of_mem _ h1)
    · rw [upsert, if_neg hk] at h
      rcases List.mem_cons.mp h with h1 | h1
      · exact Or.inl (h1 ▸ List.mem_cons_self _ _)
      · rcases ih h1 with h2 | h2
        · exact Or.inl (List.mem_cons_of_mem _ h2)
        · exact Or.inr h2

/-- A dict update contains the new binding. -/
theorem self_mem_upsert (m : List (String × XFile)) (k : String) (v : XFile) :
    (k, v) ∈ upsert m k v := by
  induction m with
  | nil => simp [upsert]
  | cons hd tl ih =>
    obtain ⟨k0, v0⟩ := hd
    by_cases hk : k0 = k
    · rw [upsert, if_pos hk]; exact List.mem_cons_self _ _
    · rw [upsert, if_neg hk]; exact List.mem_cons_of_mem _ ih

/-- A key present before a dict update is still present after it. -/
theorem exists_key_mem_upsert {m : List (String × XFile)} {k' : String}
    (k : String) (v : XFile) (h : ∃ w, (k', w) ∈ m) :
    ∃ w, (k', w) ∈ upsert m k v := by
  by_cases hkk : k' = k
  · exact ⟨v, hkk ▸ self_mem_upsert m k v⟩
  · obtain ⟨w, hw⟩ := h
    refine ⟨w, ?_⟩
    induction m with
    | nil => cases hw
    | cons hd tl ih =>
      obtain ⟨k0, v0⟩ := hd
      by_cases hk : k0 = k
      · rw [upsert, if_pos hk]
        rcases List.mem_cons.mp hw with h1 | h1
        · exact absurd (congrArg Prod.fst h1) (by simpa using hkk ∘ (hk ▸ id))
        · exact List.mem_cons_of_mem _ h1
      · rw [upsert, if_neg hk]
        rcases List.mem_cons.mp hw with h1 | h1
        · exact h1 ▸ List.mem_cons_self _ _
        · exact List.mem_cons_of_mem _ (ih h1)

/-- Any binding produced by the `year_files` fold either was in the
accumulator or names a qualifying file of the list, keyed by the first three
characters of its stem. -/
theorem mem_foldl_yfStep (y : Int) :
    ∀ (fs : List XFile) (acc : List (String × XFile)) (k : String) (f : XFile),
      (k, f) ∈ fs.foldl (yfStep y) acc →
      (k, f) ∈ acc ∨
        (f ∈ fs ∧ (matchesMonthYear f.stem && (f.stem.drop 3 == toString y)) = true
          ∧ k = f.stem.take 3) := by
  intro fs
  induction fs with
  | nil => intro acc k f h; exact Or.inl h
  | cons hd tl ih =>
    intro acc k f h
    rw [List.foldl_cons] at h
    rcases ih (yfStep y acc hd) k f h with h1 | h1
    · rw [yfStep] at h1
      split at h1
      next hcond =>
        rcases mem_upsert_elim h1 with h2 | h2
        · exact Or.inl h2
        · obtain ⟨hk3, rfl⟩ := h2
          exact Or.inr ⟨List.mem_cons_self _ _, hcond, hk3⟩
      next => exact Or.inl h1
    · exact Or.inr ⟨List.mem_cons_of_mem _ h1.1, h1.2.1, h1.2.2⟩

/-- A key present in the accumulator survives the rest of the
`year_files` fold. -/
theorem exists_key_foldl_yfStep (y : Int) :
    ∀ (fs : List XFile) (acc : List (String × XFile)) (k : String),
      (∃ w, (k, w) ∈ acc) → ∃ w, (k, w) ∈ fs.foldl (yfStep y) acc := by
  intro fs
  induction fs with
  | nil => intro acc k h; exact h
  | cons hd tl ih =>
    intro acc k h
    rw [List.foldl_cons]
    refine ih (yfStep y acc hd) k ?_
    rw [yfStep]
    split
    · exact exists_key_mem_upsert _ _ h
    · exact h

/-- A qualifying file of the list puts its month key into the fold's
result. -/
theorem key_enters_foldl_yfStep (y : Int) :
    ∀ (fs : List XFile) (acc : List (String × XFile)) (f : XFile),
      f ∈ fs →
      (matchesMonthYear f.stem && (f.stem.drop 3 == toString y)) = true →
      ∃ w, (f.stem.take 3, w) ∈ fs.foldl (yfStep y) acc := by
  intro fs
  induction fs with
  | nil => intro acc f h; cases h
  | cons hd tl ih =>
    intro acc f hf hq
    rw [List.foldl_cons]
    rcases List.mem_cons.mp hf with h1 | h1
    · refine exists_key_foldl_yfStep y tl (yfStep y acc hd) _ ?_
      subst h1
      rw [yfStep, if_pos hq]
      exact ⟨f, self_mem_upsert _ _ _⟩
    · exact ih (yfStep y acc hd) f h1 hq

/-- Inversion of the successful discrepancy computation: every KPI column
is present, no KPI cell is a string, and the output is the row-wise
augmentation of the input. -/
theorem computeDiscrepancies_ok_inv {yf : List (String × XFile)}
    {rows : List DRow} {out : List DiscRow}
    (h : computeDiscrepancies yf rows = Except.ok out) :
    out = rows.map augmentRow
      ∧ mergedHasCol yf KPI0 = true ∧ mergedHasCol yf KPI1 = true
      ∧ mergedHasCol yf KPI2 = true
      ∧ ∀ r ∈ rows, cellIsStr (getCell r KPI0) = false
          ∧ cellIsStr (getCell r KPI1) = false
          ∧ cellIsStr (getCell r KPI2) = false := by
  rw [computeDiscrepancies] at h
  split at h
  · exact absurd h (by simp)
  next h0 =>
  split at h
  · exact absurd h (by simp)
  next h1 =>
  split at h
  · exact absurd h (by simp)
  next h01 =>
  split at h
  · exact absurd h (by simp)
  next h2 =>
  split at h
  · exact absurd h (by simp)
  next h3 =>
  simp only [Except.ok.injEq] at h
  simp only [Bool.not_eq_true', Bool.not_eq_false] at h0 h1 h2
  simp only [List.any_eq_true, not_exists, not_and, Bool.or_eq_true, not_or] at h01 h3
  refine ⟨h.symm, h0, h1, h2, ?_⟩
  intro r hr
  have hA := h01 r hr
  have hB := h3 r hr
  exact ⟨Bool.not_eq_true _ ▸ (by simpa using hA.1),
    Bool.not_eq_true _ ▸ (by simpa using hA.2),
    Bool.not_eq_true _ ▸ (by simpa using hB)⟩

/-- If a KPI column is missing from the merged dataframe or some row holds
a string KPI cell, the discrepancy computation raises. -/
theorem computeDiscrepancies_error_of_bad {yf : List (String × XFile)}
    {rows : List DRow}
    (h : mergedHasCol yf KPI0 = false ∨ mergedHasCol yf KPI1 = false
      ∨ mergedHasCol yf KPI2 = false
      ∨ ∃ r ∈ rows, cellIsStr (getCell r KPI0) = true
          ∨ cellIsStr (getCell r KPI1) = true
          ∨ cellIsStr (getCell r KPI2) = true) :
    ∃ cause, computeDiscrepancies yf rows = Except.error cause := by
  rcases hE : computeDiscrepancies yf rows with cause | out
  · exact ⟨cause, rfl⟩
  · exfalso
    obtain ⟨-, h0, h1, h2, hstr⟩ := computeDiscrepancies_ok_inv hE
    rcases h with hbad | hbad | hbad | ⟨r, hr, hbad⟩
    · rw [h0] at hbad; cases hbad
    · rw [h1] at hbad; cases hbad
    · rw [h2] at hbad; cases hbad
    · obtain ⟨e0, e1, e2⟩ := hstr r hr
      rcases hbad with hb | hb | hb
      · rw [e0] at hb; cases hb
      · rw [e1] at hb; cases hb
      · rw [e2] at hb; cases hb

/-- `qabs` is the absolute value. -/
theorem qabs_eq_abs (q : ℚ) : qabs q = |q| := by
  rw [qabs]
  split
  next h => exact (abs_of_nonpos h).symm
  next h => exact (abs_of_nonneg (le_of_not_le h)).symm

/-- Three rationals have one distinct value iff they are all equal. -/
theorem dedup_three_iff (a b c : ℚ) :
    (([a, b, c] : List ℚ).dedup).length = 1 ↔ (a = b ∧ b = c) := by
  constructor
  · intro h
    obtain ⟨x, hx⟩ := List.length_eq_one.mp h
    have ha : a ∈ (([a, b, c] : List ℚ).dedup) := by simp
    have hb : b ∈ (([a, b, c] : List ℚ).dedup) := by simp
    have hc : c ∈ (([a, b, c] : List ℚ).dedup) := by simp
    rw [hx, List.mem_singleton] at ha hb hc
    exact ⟨ha.trans hb.symm, hb.trans hc.symm⟩
  · rintro ⟨rfl, rfl⟩
    have : (([a, a, a] : List ℚ).dedup) = [a] := by
      rw [List.dedup_cons_of_mem (by simp), List.dedup_cons_of_mem (by simp),
        List.dedup_cons_of_not_mem (by simp), List.dedup_nil]
    rw [this]
    rfl

end Lemmas

/-- C6: every invocation returns strictly one of the two shapes — a full
result `(plots, summary, no error)` where the plots bundle is a record
with exactly the five chart keys, or `(no plots, no summary, an error
message)`.  Never a partial bundle together with an error. -/
theorem C6_result_shape (zip_bytes : Archive) (selected_year : Int)
    (country : String) :
    (∃ p s, run_comparison_pipeline zip_bytes selected_year country
        = (some p, some s, none)) ∨
    (∃ m, run_comparison_pipeline zip_bytes selected_year country
        = (none, none, some m)) := by
  cases zip_bytes with
  | bad msg => exact Or.inr ⟨_, rfl⟩
  | ok files =>
    rw [run_comparison_pipeline]
    split
    · exact Or.inr ⟨_, rfl⟩
    · split
      · exact Or.inr ⟨_, rfl⟩
      · split
        · exact Or.inr ⟨_, rfl⟩
        · exact Or.inl ⟨_, _, rfl⟩

/-- C8 (counterexample): on an invalid archive the pipeline does return no
plots and no summary, but its error message is exactly the generic
`"Processing error: " ++ cause` shape of the catch-all handler — the same
shape spec §7 assigns to `ProcessingError` — so it is not an error kind
distinguishable from `ProcessingError`, contrary to the claim. -/
theorem C8_counterexample :
    run_comparison_pipeline (Archive.bad "File is not a zip file") 2023
        "All Countries"
      = (none, none, some "Processing error: File is not a zip file")
    ∧ isProcessingErrorMessage "Processing error: File is not a zip file" := by
  exact ⟨rfl, "File is not a zip file", rfl⟩

/-- C8 (amended): when the bytes are not a valid archive (the zip library
raised with message `msg`), the pipeline fails and returns no summary and
no chart bundle, but the surfaced error is the generic processing-error
message `"Processing error: " ++ msg`, not a distinct extraction-error
kind. -/
theorem C8_invalid_archive_generic_error (msg : String) (selected_year : Int)
    (country : String) :
    run_comparison_pipeline (Archive.bad msg) selected_year country
      = (none, none, some ("Processing error: " ++ msg)) := rfl

/-- C10: month labels keep the letter case of the file name.  Two files
whose stems differ only in case, such as `JAN2023.xlsx` and `jan2023.xlsx`,
get the distinct keys `"JAN"` and `"jan"` in the month-to-file mapping,
both are loaded, and their rows carry the distinct month tags. -/
theorem C10_case_sensitive_months (cols1 cols2 : List String)
    (rows1 rows2 : List Row) :
    buildYearFiles [⟨"JAN2023", ".xlsx", cols1, rows1⟩,
        ⟨"jan2023", ".xlsx", cols2, rows2⟩] 2023
      = [("JAN", ⟨"JAN2023", ".xlsx", cols1, rows1⟩),
         ("jan", ⟨"jan2023", ".xlsx", cols2, rows2⟩)]
    ∧ loadRows (buildYearFiles [⟨"JAN2023", ".xlsx", cols1, rows1⟩,
        ⟨"jan2023", ".xlsx", cols2, rows2⟩] 2023)
      = rows1.map (fun r => ⟨"JAN", cols1, r⟩)
        ++ rows2.map (fun r => ⟨"jan", cols2, r⟩)
    ∧ ("JAN" : String) ≠ "jan" := by
  have h1 : buildYearFiles [⟨"JAN2023", ".xlsx", cols1, rows1⟩,
      ⟨"jan2023", ".xlsx", cols2, rows2⟩] 2023
    = [("JAN", ⟨"JAN2023", ".xlsx", cols1, rows1⟩),
       ("jan", ⟨"jan2023", ".xlsx", cols2, rows2⟩)] := by
    simp +decide [buildYearFiles, yfStep, upsert, matchesMonthYear]
  refine ⟨h1, ?_, by decide⟩
  rw [h1]
  simp [loadRows]

/-- C3 (counterexample): for the five-digit target year 12345 the file
`Jan12345.xlsx` is put into the month-to-path mapping (the regex is only
anchored at the start, so "three letters then at least four digits" passes
and the stem tail equals `str(12345)`), although its base name does not
match the claim's "exactly three alphabetic characters followed by exactly
four digits whose digits equal the year" — under the claim the mapping
would be empty and the pipeline would fail with the no-files-for-year
error, which it does not. -/
theorem C3_counterexample :
    buildYearFiles [fileFiveDigits] 12345 = [("Jan", fileFiveDigits)]
    ∧ (∀ f ∈ [fileFiveDigits], ¬ specExactPattern f.stem 12345)
    ∧ (run_comparison_pipeline (Archive.ok [fileFiveDigits]) 12345
          "All Countries").2.2
        ≠ some ("No files found for year " ++ toString (12345 : Int) ++ ".") := by
  exact ⟨by decide, by decide, by decide⟩

/-- C3 (amended): a file is bound in the month-to-path mapping exactly when
it is an `.xlsx` file whose stem starts with three alphabetic characters
followed by at least four digits and whose stem tail (everything after the
first three characters) equals the decimal representation of the target
year; the key is the first three characters of the stem (for four-digit
years this coincides with the claimed exactly-three-letters-four-digits
pattern).  When the mapping is empty the pipeline fails with the
no-files-found-for-year message naming the year. -/
theorem C3_amended_year_matching (files : List XFile) (selected_year : Int) :
    (∀ k f, (k, f) ∈ buildYearFiles files selected_year →
        f ∈ files ∧ qualifies selected_year f = true ∧ k = f.stem.take 3)
    ∧ (∀ f ∈ files, qualifies selected_year f = true →
        ∃ g, (f.stem.take 3, g) ∈ buildYearFiles files selected_year)
    ∧ (∀ country, buildYearFiles files selected_year = [] →
        run_comparison_pipeline (Archive.ok files) selected_year country
          = (none, none,
              some ("No files found for year " ++ toString selected_year ++ "."))) := by
  refine ⟨?_, ?_, ?_⟩
  · intro k f h
    rcases mem_foldl_yfStep selected_year _ [] k f h with h1 | h1
    · cases h1
    · obtain ⟨hf, hcond, hk⟩ := h1
      rw [List.mem_filter] at hf
      exact ⟨hf.1, by rw [qualifies, hf.2, hcond]; rfl, hk⟩
  · intro f hf hq
    rw [qualifies, Bool.and_eq_true] at hq
    exact key_enters_foldl_yfStep selected_year _ [] f
      (List.mem_filter.mpr ⟨hf, hq.1⟩) hq.2
  · intro country hempty
    rw [run_comparison_pipeline, hempty]
    simp

/-- C3 witness: the amended characterisation applied to the concrete
mapping built from `Jan12345.xlsx` for year 12345. -/
theorem C3_witness :
    fileFiveDigits ∈ [fileFiveDigits]
    ∧ qualifies 12345 fileFiveDigits = true
    ∧ "Jan" = fileFiveDigits.stem.take 3 := by
  have h := (C3_amended_year_matching [fileFiveDigits] 12345).1 "Jan"
    fileFiveDigits (by decide)
  exact h

/-- C1: for every record of a successfully augmented dataset whose KPI
cells are numeric, the three diff fields are the absolute differences of
the corresponding KPI pairs (hence symmetric in the order of subtraction
and non-negative), and `All_Match` holds iff the three KPI values are
exactly equal, which holds iff all three diffs are exactly zero. -/
theorem C1_discrepancy_fields (yf : List (String × XFile)) (rows : List DRow)
    (out : List DiscRow) (h : computeDiscrepancies yf rows = Except.ok out)
    (d : DiscRow) (hd : d ∈ out) (a b c : ℚ)
    (ha : getCell d.base KPI0 = Cell.num a)
    (hb : getCell d.base KPI1 = Cell.num b)
    (hc : getCell d.base KPI2 = Cell.num c) :
    d.Diff_Reg_vs_Grp = Cell.num |a - b|
    ∧ d.Diff_Reg_vs_Act = Cell.num |a - c|
    ∧ d.Diff_Grp_vs_Act = Cell.num |b - c|
    ∧ (|a - b| = |b - a| ∧ |a - c| = |c - a| ∧ |b - c| = |c - b|)
    ∧ (0 ≤ |a - b| ∧ 0 ≤ |a - c| ∧ 0 ≤ |b - c|)
    ∧ (d.All_Match = true ↔ (a = b ∧ b = c))
    ∧ (d.All_Match = true ↔
        (d.Diff_Reg_vs_Grp = Cell.num 0 ∧ d.Diff_Reg_vs_Act = Cell.num 0
          ∧ d.Diff_Grp_vs_Act = Cell.num 0)) := by
  obtain ⟨rfl, -, -, -, -⟩ := computeDiscrepancies_ok_inv h
  obtain ⟨r, hr, rfl⟩ := List.mem_map.mp hd
  simp only [augmentRow] at ha hb hc ⊢
  rw [ha, hb, hc]
  have hnu : nunique [Cell.num a, Cell.num b, Cell.num c]
      = (([a, b, c] : List ℚ).dedup).length := rfl
  simp only [cellAbsSub, qabs_eq_abs]
  refine ⟨True.intro, True.intro, True.intro,
    ⟨abs_sub_comm a b, abs_sub_comm a c, abs_sub_comm b c⟩,
    ⟨abs_nonneg _, abs_nonneg _, abs_nonneg _⟩, ?_, ?_⟩
  · rw [beq_iff_eq, hnu]
    exact dedup_three_iff a b c
  · rw [beq_iff_eq, hnu, dedup_three_iff]
    simp only [Cell.num.injEq, abs_eq_zero, sub_eq_zero]
    constructor
    · rintro ⟨rfl, rfl⟩; exact ⟨rfl, rfl, rfl⟩
    · rintro ⟨rfl, -, rfl⟩; exact ⟨rfl, rfl⟩

/-- The dataset row `fileAllMatch` contributes after loading. -/
def rowApr : DRow :=
  ⟨"Apr", KPI_COLS, [(KPI0, Cell.num 7), (KPI1, Cell.num 7), (KPI2, Cell.num 7)]⟩

/-- C1 witness: the field characterisation instantiated on the concrete
all-equal record of `fileAllMatch`. -/
theorem C1_witness :
    (augmentRow rowApr).Diff_Reg_vs_Grp = Cell.num |(7 : ℚ) - 7|
    ∧ ((augmentRow rowApr).All_Match = true ↔ ((7 : ℚ) = 7 ∧ (7 : ℚ) = 7)) := by
  have h := C1_discrepancy_fields [("Apr", fileAllMatch)] [rowApr]
    ([rowApr].map augmentRow) rfl (augmentRow rowApr) (by simp) 7 7 7
    (by decide) (by decide) (by decide)
  exact ⟨h.1, h.2.2.2.2.2.1⟩

/-- The arithmetic invariants of the summary quantities, for any augmented
dataset. -/
theorem summaryOf_props (out : List DiscRow) :
    (summaryOf out).all_match + (summaryOf out).mismatch = (summaryOf out).total
    ∧ 0 ≤ (summaryOf out).all_match_rate ∧ (summaryOf out).all_match_rate ≤ 1
    ∧ 0 ≤ (summaryOf out).mismatch_rate ∧ (summaryOf out).mismatch_rate ≤ 1
    ∧ (0 < (summaryOf out).total →
        (summaryOf out).all_match_rate + (summaryOf out).mismatch_rate = 1) := by
  have hle : allMatchCount out ≤ out.length := List.length_filter_le _ _
  simp only [summaryOf]
  refine ⟨by omega, ?_, ?_, ?_, ?_, ?_⟩
  · exact div_nonneg (Nat.cast_nonneg _) (Nat.cast_nonneg _)
  · rcases Nat.eq_zero_or_pos out.length with h0 | hpos
    · have : allMatchCount out = 0 := by omega
      simp [this, h0]
    · rw [div_le_one (by exact_mod_cast hpos)]
      exact_mod_cast hle
  · exact div_nonneg (Nat.cast_nonneg _) (Nat.cast_nonneg _)
  · rcases Nat.eq_zero_or_pos out.length with h0 | hpos
    · simp [h0]
    · rw [div_le_one (by exact_mod_cast hpos)]
      exact_mod_cast Nat.sub_le _ _
  · intro hpos
    have hn : ((out.length : ℚ)) ≠ 0 := by
      exact_mod_cast Nat.pos_iff_ne_zero.mp hpos
    rw [div_add_div_same, Nat.cast_sub hle, add_sub_cancel, div_self hn]

/-- C2: whenever an invocation returns a summary (the filtered dataset was
non-empty), the match and mismatch counts add up to the total, both rates
lie in `[0, 1]`, and the rates sum to 1 whenever the total is positive. -/
theorem C2_summary_invariants (zip_bytes : Archive) (selected_year : Int)
    (country : String) (p : Plots) (s : Summary)
    (h : run_comparison_pipeline zip_bytes selected_year country
      = (some p, some s, none)) :
    s.all_match + s.mismatch = s.total
    ∧ 0 ≤ s.all_match_rate ∧ s.all_match_rate ≤ 1
    ∧ 0 ≤ s.mismatch_rate ∧ s.mismatch_rate ≤ 1
    ∧ (0 < s.total → s.all_match_rate + s.mismatch_rate = 1) := by
  have hs : ∃ out, s = summaryOf out := by
    cases zip_bytes with
    | bad msg => simp [run_comparison_pipeline] at h
    | ok files =>
      rw [run_comparison_pipeline] at h
      split at h
      · simp at h
      · split at h
        · simp at h
        · split at h
          · simp at h
          next out heq =>
            simp only [Prod.mk.injEq, Option.some.injEq] at h
            exact ⟨out, h.2.1.symm⟩
  obtain ⟨out, rfl⟩ := hs
  exact summaryOf_props out

/-- C2 witness: the invariants on the summary of the concrete successful
run over `fileAllMatch`. -/
theorem C2_witness :
    (summaryOf [augmentRow rowApr]).all_match
        + (summaryOf [augmentRow rowApr]).mismatch
      = (summaryOf [augmentRow rowApr]).total := by
  have h := C2_summary_invariants (Archive.ok [fileAllMatch]) 2023
    "All Countries"
    (buildPlots (hasCountryCol (buildYearFiles [fileAllMatch] 2023))
      [augmentRow rowApr])
    (summaryOf [augmentRow rowApr]) (by rfl)
  exact h.1

/-- A non-empty list has `isEmpty = false`. -/
theorem isEmpty_false_of_ne_nil {α : Type} {l : List α} (h : l ≠ []) :
    l.isEmpty = false := by
  cases l with
  | nil => exact absurd rfl h
  | cons a t => rfl

/-- C4 (counterexample): a record whose KPI value is missing (an empty
cell, NaN once loaded) does not make the pipeline fail: on `fileNanKpi`
(first KPI cell absent) the run returns a full plots bundle and a summary
and no error, contrary to the claim that a missing KPI value yields a
`ProcessingError`.  The NaN row is even counted as a match, since
`nunique` ignores NaN. -/
theorem C4_counterexample :
    getCell ⟨"Jan", KPI_COLS, [(KPI1, Cell.num 5), (KPI2, Cell.num 5)]⟩ KPI0
        = Cell.nan
    ∧ (run_comparison_pipeline (Archive.ok [fileNanKpi]) 2023
        "All Countries").2.2 = none
    ∧ (run_comparison_pipeline (Archive.ok [fileNanKpi]) 2023
        "All Countries").1.isSome = true
    ∧ (run_comparison_pipeline (Archive.ok [fileNanKpi]) 2023
        "All Countries").2.1.isSome = true := by
  exact ⟨by decide, by decide, by decide, by decide⟩

/-- C4 (amended): when the pipeline reaches the discrepancy computation
(some file matched the year and the country-filtered dataset is non-empty)
and a KPI column is absent from the merged dataframe or some filtered
record holds a non-numeric (string) KPI value, the run fails with the
generic processing error carrying the underlying cause and returns no
summary and no chart bundle.  A missing individual KPI cell (NaN) does not
trigger this. -/
theorem C4_amended_processing_error (files : List XFile) (selected_year : Int)
    (country : String)
    (h1 : buildYearFiles files selected_year ≠ [])
    (h2 : applyCountryFilter (hasCountryCol (buildYearFiles files selected_year))
        country (loadRows (buildYearFiles files selected_year)) ≠ [])
    (h3 : mergedHasCol (buildYearFiles files selected_year) KPI0 = false
      ∨ mergedHasCol (buildYearFiles files selected_year) KPI1 = false
      ∨ mergedHasCol (buildYearFiles files selected_year) KPI2 = false
      ∨ ∃ r ∈ applyCountryFilter
            (hasCountryCol (buildYearFiles files selected_year)) country
            (loadRows (buildYearFiles files selected_year)),
          cellIsStr (getCell r KPI0) = true ∨ cellIsStr (getCell r KPI1) = true
            ∨ cellIsStr (getCell r KPI2) = true) :
    ∃ m, run_comparison_pipeline (Archive.ok files) selected_year country
        = (none, none, some ("Processing error: " ++ m)) := by
  obtain ⟨cause, hc⟩ := computeDiscrepancies_error_of_bad h3
  refine ⟨cause, ?_⟩
  rw [run_comparison_pipeline]
  simp only [isEmpty_false_of_ne_nil h1, isEmpty_false_of_ne_nil h2,
    Bool.false_eq_true, if_false, hc]

/-- The dataset row `fileStrKpi` contributes after loading. -/
def rowMar : DRow :=
  ⟨"Mar", KPI_COLS,
    [(KPI0, Cell.str "oops"), (KPI1, Cell.num 3), (KPI2, Cell.num 3)]⟩

/-- C4 witness: a non-numeric KPI value (`fileStrKpi`) does make the
concrete run fail with the processing-error message. -/
theorem C4_witness :
    ∃ m, run_comparison_pipeline (Archive.ok [fileStrKpi]) 2023 "All Countries"
        = (none, none, some ("Processing error: " ++ m)) := by
  refine C4_amended_processing_error [fileStrKpi] 2023 "All Countries"
    (by decide) (by decide) ?_
  exact Or.inr (Or.inr (Or.inr ⟨rowMar, by decide, Or.inl (by decide)⟩))

/-- C7 (counterexample): when one selected file carries a `Country` column
and another does not, the records of the file without it get a missing
(NaN) country value, not `"Unknown"` — the `"Unknown"` default is applied
only when no file at all carries the column. -/
theorem C7_counterexample :
    hasCountryCol (buildYearFiles [fileWithCountry, fileNoCountry] 2023) = true
    ∧ rowFeb ∈ loadRows (buildYearFiles [fileWithCountry, fileNoCountry] 2023)
    ∧ rowCountry
        (hasCountryCol (buildYearFiles [fileWithCountry, fileNoCountry] 2023))
        rowFeb = Cell.nan
    ∧ Cell.nan ≠ Cell.str "Unknown" := by
  exact ⟨by decide, by decide, by decide, by decide⟩

/-- C7 (amended): a record whose source file omits the country field gets
country `"Unknown"` exactly when no selected file carries a `Country`
column (that is when the code synthesizes the column); when some other
file does carry it, that record's country is the missing value NaN. -/
theorem C7_amended_country_default (files : List XFile) (selected_year : Int)
    (r : DRow)
    (_hr : r ∈ loadRows (buildYearFiles files selected_year))
    (hnc : r.cols.contains "Country" = false) :
    rowCountry (hasCountryCol (buildYearFiles files selected_year)) r
      = (if hasCountryCol (buildYearFiles files selected_year) = true
          then Cell.nan else Cell.str "Unknown") := by
  by_cases hC : hasCountryCol (buildYearFiles files selected_year) = true
  · simp only [hC, if_true, rowCountry, getCell, hnc]
    rw [if_neg (by decide), if_neg (by simp)]
  · simp only [Bool.not_eq_true] at hC
    simp [rowCountry, hC]

/-- C7 witness: the amended rule applied to the concrete mixed archive —
`rowFeb` comes from a file without a country field while another selected
file has one, so its country is NaN. -/
theorem C7_witness :
    rowCountry
        (hasCountryCol (buildYearFiles [fileWithCountry, fileNoCountry] 2023))
        rowFeb
      = (if hasCountryCol (buildYearFiles [fileWithCountry, fileNoCountry] 2023)
            = true
          then Cell.nan else Cell.str "Unknown") :=
  C7_amended_country_default [fileWithCountry, fileNoCountry] 2023 rowFeb
    (by decide) (by decide)

/-- Concrete file used in examples: matching stem but `.csv` extension. -/
def fileCsv : XFile := ⟨"Jan2023", ".csv", KPI_COLS, [[]]⟩

/-- C9: only `.xlsx` files are ever considered — every file bound in the
month-to-path mapping has extension `.xlsx`, and an archive none of whose
files has that extension fails with the no-files-found-for-year error
(regardless of the base names). -/
theorem C9_xlsx_only (files : List XFile) (selected_year : Int)
    (country : String) :
    (∀ p ∈ buildYearFiles files selected_year, p.2.ext = ".xlsx")
    ∧ ((∀ f ∈ files, f.ext ≠ ".xlsx") →
        run_comparison_pipeline (Archive.ok files) selected_year country
          = (none, none,
              some ("No files found for year " ++ toString selected_year ++ "."))) := by
  constructor
  · rintro ⟨k, f⟩ hp
    rcases mem_foldl_yfStep selected_year _ [] k f hp with h1 | h1
    · cases h1
    · have h2 := (List.mem_filter.mp h1.1).2
      simpa using h2
  · intro hall
    have hnil : buildYearFiles files selected_year = [] := by
      rw [buildYearFiles]
      have hfil : files.filter (fun f => f.ext == ".xlsx") = [] := by
        rw [List.filter_eq_nil_iff]
        intro a ha
        simpa using hall a ha
      rw [hfil]
      rfl
    rw [run_comparison_pipeline, hnil]
    simp

/-- C9 witness: an archive containing only the pattern-matching `.csv`
file `Jan2023.csv` fails with the no-files-found message for 2023. -/
theorem C9_witness :
    run_comparison_pipeline (Archive.ok [fileCsv]) 2023 "All Countries"
      = (none, none,
          some ("No files found for year " ++ toString (2023 : Int) ++ ".")) :=
  (C9_xlsx_only [fileCsv] 2023 "All Countries").2 (by decide)

/-- C5: for every discrepancy-augmented dataset with numeric `Max_Diff`
values, the top-mismatches table has `min(total, 10)` rows and never more
than 10, is sorted by descending `Max_Diff`, contains only records whose
`Max_Diff` dominates every non-selected record (the largest ones), equals
the whole projected dataset when at most 10 records exist, projects the
columns country, month, the three KPI values and `Max_Diff`, and breaks
ties by original dataset order: it equals the position-tie-broken stable
sort (`enumLE`) truncated to 10. -/
theorem C5_top_mismatches (hasC : Bool) (out : List DiscRow)
    (hnum : ∀ d ∈ out, ∃ q, d.Max_Diff = Cell.num q) :
    (topMismatches hasC out).length = min out.length 10
    ∧ (topMismatches hasC out).length ≤ 10
    ∧ List.Pairwise (fun x y : TopRow => mdKey y.max_diff ≤ mdKey x.max_diff)
        (topMismatches hasC out)
    ∧ (∀ x ∈ topSelect out, ∀ y ∈ out, y ∉ topSelect out →
        mdKey y.Max_Diff ≤ mdKey x.Max_Diff)
    ∧ (out.length ≤ 10 →
        (topMismatches hasC out).Perm (out.map (projectTop hasC)))
    ∧ (∀ t ∈ topMismatches hasC out, ∃ d, d ∈ out ∧ t = projectTop hasC d
        ∧ t.country = rowCountry hasC d.base ∧ t.month = d.base.month
        ∧ t.kpi_reg = getCell d.base KPI0 ∧ t.kpi_grp = getCell d.base KPI1
        ∧ t.kpi_act = getCell d.base KPI2 ∧ t.max_diff = d.Max_Diff)
    ∧ topMismatches hasC out
        = ((out.enum.mergeSort (List.enumLE descLe)).take 10).map
            (fun p => projectTop hasC p.2) := by
  have hfil : out.filter (fun d => !(decide (d.Max_Diff = Cell.nan))) = out := by
    rw [List.filter_eq_self]
    intro d hd
    obtain ⟨q, hq⟩ := hnum d hd
    simp [hq]
  have htrans : ∀ a b c : DiscRow,
      descLe a b = true → descLe b c = true → descLe a c = true := by
    intro a b c h1 h2
    simp only [descLe, decide_eq_true_eq] at h1 h2 ⊢
    exact le_trans h2 h1
  have htotal : ∀ a b : DiscRow, (descLe a b || descLe b a) = true := by
    intro a b
    simp only [descLe, Bool.or_eq_true, decide_eq_true_eq]
    exact le_total _ _
  have hsel : topSelect out = (out.mergeSort descLe).take 10 := by
    rw [topSelect, hfil]
  have hsorted : List.Pairwise (fun a b : DiscRow => descLe a b = true)
      (out.mergeSort descLe) := List.sorted_mergeSort htrans htotal out
  have hpwSel : List.Pairwise (fun a b : DiscRow => descLe a b = true)
      (topSelect out) := by
    rw [hsel]
    exact List.Pairwise.sublist (List.take_sublist _ _) hsorted
  have hlen : (topMismatches hasC out).length = min out.length 10 := by
    rw [topMismatches, List.length_map, hsel, List.length_take,
      List.length_mergeSort]
    exact min_comm _ _
  refine ⟨hlen, ?_, ?_, ?_, ?_, ?_, ?_⟩
  · rw [hlen]
    exact Nat.min_le_right _ _
  · rw [topMismatches]
    refine List.Pairwise.map _ ?_ hpwSel
    intro a b hab
    simpa [projectTop, descLe] using hab
  · intro x hx y hy hyn
    have hyS : y ∈ out.mergeSort descLe := List.mem_mergeSort.mpr hy
    rw [hsel] at hx hyn
    have hS : out.mergeSort descLe
        = (out.mergeSort descLe).take 10 ++ (out.mergeSort descLe).drop 10 :=
      (List.take_append_drop _ _).symm
    have hyd : y ∈ (out.mergeSort descLe).drop 10 := by
      rcases List.mem_append.mp (hS ▸ hyS) with h | h
      · exact absurd h hyn
      · exact h
    have hps := hsorted
    rw [hS, List.pairwise_append] at hps
    have h := hps.2.2 x hx y hyd
    simpa [descLe, decide_eq_true_eq] using h
  · intro hl
    rw [topMismatches, hsel]
    have htk : (out.mergeSort descLe).take 10 = out.mergeSort descLe := by
      apply List.take_of_length_le
      rw [List.length_mergeSort]
      exact hl
    rw [htk]
    exact (List.mergeSort_perm out descLe).map _
  · intro t ht
    rw [topMismatches] at ht
    obtain ⟨d, hd, rfl⟩ := List.mem_map.mp ht
    have hdS : d ∈ out := by
      rw [hsel] at hd
      exact List.mem_mergeSort.mp (List.mem_of_mem_take hd)
    exact ⟨d, hdS, rfl, rfl, rfl, rfl, rfl, rfl, rfl⟩
  · rw [topMismatches, hsel, ← List.mergeSort_enum, ← List.map_take,
      List.map_map]
    rfl

/-- A mismatching dataset row used in the C5 witness. -/
def rowMay : DRow :=
  ⟨"May", KPI_COLS,
    [(KPI0, Cell.num 100), (KPI1, Cell.num 90), (KPI2, Cell.num 100)]⟩

/-- A concrete matching discrepancy record used in the C5 witness. -/
def discFeb : DiscRow :=
  ⟨rowFeb, Cell.num 0, Cell.num 0, Cell.num 0, true, Cell.num 0⟩

/-- A concrete mismatching discrepancy record used in the C5 witness. -/
def discMay : DiscRow :=
  ⟨rowMay, Cell.num 10, Cell.num 0, Cell.num 10, false, Cell.num 10⟩

/-- C5 witness: the table characterisation instantiated on a concrete
two-record dataset (one match, one mismatch). -/
theorem C5_witness :
    (∀ d ∈ [discFeb, discMay], ∃ q, d.Max_Diff = Cell.num q)
    ∧ (topMismatches false [discFeb, discMay]).length
        = min ([discFeb, discMay].length) 10 := by
  have hn : ∀ d ∈ [discFeb, discMay], ∃ q, d.Max_Diff = Cell.num q := by
    intro d hd
    rcases List.mem_cons.mp hd with rfl | hd
    · exact ⟨0, rfl⟩
    · rcases List.mem_cons.mp hd with rfl | hd
      · exact ⟨10, rfl⟩
      · cases hd
  exact ⟨hn, (C5_top_mismatches false [discFeb, discMay] hn).1⟩

end CompareService
